import Mathlib

/-!
Shallow embedding of the Multi-Modality Volume Layer Manager of the
Healthcare repository (the `NiftiViewer` component holding `onSelectFolder`,
`labelFromName`, `setVisibilityForMod`, `loadBaseFromUrl`, `loadMaskFromUrl`
and the mask-opacity slider handler), together with theorems settling the
frozen claims about it.

Strings are modelled as `String` / `List Char`; JavaScript regular-expression
word-boundary tests are modelled explicitly (`\w = [A-Za-z0-9_]`); opacities
(JS floats that only ever hold values like 0, 0.5, 1 or a slider reading)
are modelled as `ℚ`; the render engine's volume list is a `List Volume`;
a fallible volume load is driven by an oracle `ok : SourceFile → Bool`
(`true` = the engine accepts the file, `false` = the load call throws).
-/

namespace Healthcare

/-- JS regex word character: `[A-Za-z0-9_]` (inputs are ASCII file names). -/
def isWordChar (c : Char) : Bool := c.isAlphanum || c == '_'

/-- Model of `String.prototype.toLowerCase` on the character list. -/
def lowerStr (s : List Char) : List Char := s.map Char.toLower

/-- If `pat` is a prefix of `s`, return the remainder of `s`; else `none`. -/
def dropPre : List Char → List Char → Option (List Char)
  | [], s => some s
  | _ :: _, [] => none
  | p :: ps, c :: cs => if p == c then dropPre ps cs else none

/-- Model of `String.prototype.includes(pat)`. -/
def containsSub (pat : List Char) : List Char → Bool
  | [] => (dropPre pat []).isSome
  | c :: rest => (dropPre pat (c :: rest)).isSome || containsSub pat rest

/-- Model of `String.prototype.endsWith(suf)`. -/
def endsWithSuf (suf s : List Char) : Bool := (dropPre suf.reverse s.reverse).isSome

/-- A `\b` immediately after a word character: the rest of the string must be
empty or start with a non-word character. -/
def boundaryR : List Char → Bool
  | [] => true
  | c :: _ => !isWordChar c

/-- Does the alternative `_tok\b` match at the head of `s`?  (`tok` consists of
word characters, so the trailing `\b` asks for a non-word character or the end
of the string after the token.) -/
def tokenHereUnd (tok s : List Char) : Bool :=
  match dropPre ('_' :: tok) s with
  | some rest => boundaryR rest
  | none => false

/-- Does the alternative `\btok\b` match at the head of `s`, given whether the
character preceding `s` (if any) was a word character? -/
def tokenHereBare (tok : List Char) (prevIsWord : Bool) (s : List Char) : Bool :=
  !prevIsWord &&
    match dropPre tok s with
    | some rest => boundaryR rest
    | none => false

/-- Scan `s` position by position for a match of `(_tok\b|\btok\b)`,
threading whether the previous character was a word character. -/
def tokenScan (tok : List Char) (prevIsWord : Bool) : List Char → Bool
  | [] => false
  | c :: rest =>
    tokenHereUnd tok (c :: rest) || tokenHereBare tok prevIsWord (c :: rest) ||
      tokenScan tok (isWordChar c) rest

/-- Model of `/(_tok\b|\btok\b)/.test(s)` for a word-character token `tok`. -/
def tokTest (tok s : List Char) : Bool := tokenScan tok false s

/-- The five managed modality keys (`ModKey` in the source). -/
inductive ModKey
  | flair
  | seg
  | t1
  | t1ce
  | t2
deriving DecidableEq

/-- Result of `labelFromName`: a modality key, the extra `pflair` key, or the
original file name when no suffix matches (`return n`). -/
inductive Label
  | flair
  | seg
  | t1ce
  | t1
  | t2
  | pflair
  | other (n : String)
deriving DecidableEq

/-- Model of `modalityOrder.includes(label)`: the modality key of a label,
`none` for `pflair` and for unrecognized names. -/
def Label.toModKey? : Label → Option ModKey
  | .flair => some .flair
  | .seg => some .seg
  | .t1ce => some .t1ce
  | .t1 => some .t1
  | .t2 => some .t2
  | .pflair => none
  | .other _ => none

/-- Embed a modality key into `Label`. -/
def Label.ofKey : ModKey → Label
  | .flair => .flair
  | .seg => .seg
  | .t1ce => .t1ce
  | .t1 => .t1
  | .t2 => .t2

/-- The source's `labelFromName`: lowercase the name, then test the suffix
regexes in order `flair`, `seg`, `t1ce`, `t1`, `t2`, `pflair`, returning the
first key whose regex matches, else the name itself. -/
def labelFromName (n : String) : Label :=
  let lower := lowerStr n.data
  if tokTest "flair".data lower then .flair
  else if tokTest "seg".data lower then .seg
  else if tokTest "t1ce".data lower then .t1ce
  else if tokTest "t1".data lower then .t1
  else if tokTest "t2".data lower then .t2
  else if tokTest "pflair".data lower then .pflair
  else .other n

/-- A folder entry handed to `onSelectFolder`: `{url, name}`. -/
structure SourceFile where
  url : String
  name : String
deriving DecidableEq

/-- A volume held by the render engine: the fields of the objects the viewer
passes to `loadVolumes` / `addVolumeFromUrl` plus the engine defaults it
relies on (opacity defaults to 1, no explicit colormap, not a label). -/
structure Volume where
  url : String
  name : String
  isLabel : Bool
  colormap : Option String
  opacity : ℚ
deriving DecidableEq

/-- A `Record<ModKey, boolean>` (the `present` and `active` maps). -/
structure ModMap where
  flair : Bool
  seg : Bool
  t1 : Bool
  t1ce : Bool
  t2 : Bool
deriving DecidableEq

/-- The all-`false` map used to initialise `active` and `pres`. -/
def ModMap.allFalse : ModMap := ⟨false, false, false, false, false⟩

/-- The component state the claims are about: the engine's volume list plus the
React state variables `vol`, `overlayName`, `present`, `active`, `datasetName`
and `overlayOpacity`. -/
structure ViewerState where
  volumes : List Volume
  vol : Option SourceFile
  overlayName : Option String
  present : Option ModMap
  active : ModMap
  datasetName : Option String
  overlayOpacity : ℚ
deriving DecidableEq

/-- The component's state after mount: the default public volume is loaded,
`overlayOpacity` starts at 0.5, every map entry is false. -/
def initState : ViewerState where
  volumes := [⟨"/BraTS20_Validation_008_flair.nii", "BraTS20_Validation_008_flair.nii",
    false, none, 1⟩]
  vol := some ⟨"/BraTS20_Validation_008_flair.nii", "BraTS20_Validation_008_flair.nii"⟩
  overlayName := none
  present := none
  active := ModMap.allFalse
  datasetName := none
  overlayOpacity := mkRat 1 2

/-- Does the lowercased name end in `.nii` or `.nii.gz`? -/
def niiExt (lower : List Char) : Bool :=
  endsWithSuf ".nii".data lower || endsWithSuf ".nii.gz".data lower

/-- The base-selection predicate of `onSelectFolder`:
`lower.includes("_flair") && (lower.endsWith(".nii") || lower.endsWith(".nii.gz"))`. -/
def isFlairFile (f : SourceFile) : Bool :=
  let lower := lowerStr f.name.data
  containsSub "_flair".data lower && niiExt lower

/-- The mask-selection predicate of `onSelectFolder`:
`lower.includes("_seg") && (lower.endsWith(".nii") || lower.endsWith(".nii.gz"))`. -/
def isSegFile (f : SourceFile) : Bool :=
  let lower := lowerStr f.name.data
  containsSub "_seg".data lower && niiExt lower

/-- Index of the first list element satisfying `p` (JS `findIndex`-style;
models the position of the object a `find` call returns, so that the loop's
reference-equality skip `f === flair || f === segFile` can be expressed). -/
def firstIdxP {α : Type} (p : α → Bool) : List α → Option Nat
  | [] => none
  | x :: rest => if p x then some 0 else (firstIdxP p rest).map (fun k => k + 1)

/-- The volume created by `nv.loadVolumes([{url, name}])` for the base file:
engine defaults, opacity 1. -/
def mkBase (f : SourceFile) : Volume := ⟨f.url, f.name, false, none, 1⟩

/-- The volume created by
`nv.addVolumeFromUrl({url, name, isLabel: true, colormap: "red", opacity})`. -/
def maskVol (f : SourceFile) (op : ℚ) : Volume := ⟨f.url, f.name, true, some "red", op⟩

/-- The volume created by `nv.addVolumeFromUrl({url, name, opacity: 0})`
for a hidden modality overlay. -/
def hiddenVol (f : SourceFile) : Volume := ⟨f.url, f.name, false, none, 0⟩

/-- The post-add fix-up block of `onSelectFolder`: take
`nv.volumes[nv.volumes.length - 1]` and set `isLabel`, `colormap` and
`opacity` on it (a re-assertion of the values the mask was added with). -/
def setLastSeg (op : ℚ) : List Volume → List Volume
  | [] => []
  | [v] => [{ v with isLabel := true, colormap := some "red", opacity := op }]
  | v :: w :: rest => v :: setLastSeg op (w :: rest)

/-- The presence-map loop of `onSelectFolder`: for each file, classify it via
`labelFromName`; skip `pflair`; mark the presence bit of any modality key. -/
def presence (files : List SourceFile) : ModMap :=
  files.foldl
    (fun m f =>
      match labelFromName f.name with
      | .flair => { m with flair := true }
      | .seg => { m with seg := true }
      | .t1ce => { m with t1ce := true }
      | .t1 => { m with t1 := true }
      | .t2 => { m with t2 := true }
      | _ => m)
    ModMap.allFalse

/-- The tail of `onSelectFolder` after all loads: build the presence map, set
`active` to `{flair: pres.flair, seg: pres.seg, t1/t1ce/t2: false}` and set
`datasetName` to `name ?? files[0]?.name ?? null`. -/
def finishLoad (st : ViewerState) (files : List SourceFile) (dname : Option String) :
    ViewerState :=
  let pres := presence files
  { st with
    present := some pres
    active := { flair := pres.flair, seg := pres.seg, t1 := false, t1ce := false, t2 := false }
    datasetName := dname.orElse (fun _ => files.head?.map (fun f => f.name)) }

/-- The "load other modalities as hidden overlays" loop of `onSelectFolder`:
walk the files with their indices, skip the base and mask occurrences, and for
every file whose label is a modality key issue `addVolumeFromUrl` with
`opacity: 0` (appending to the engine list); a failing add throws, ending the
loop with the volumes added so far. -/
def loadOthers (ok : SourceFile → Bool) (skipA skipB : Option Nat) :
    Nat → List SourceFile → List Volume → List Volume × Bool
  | _, [], acc => (acc, true)
  | i, f :: rest, acc =>
    if skipA == some i || skipB == some i then
      loadOthers ok skipA skipB (i + 1) rest acc
    else
      match (labelFromName f.name).toModKey? with
      | some _ =>
        if ok f then loadOthers ok skipA skipB (i + 1) rest (acc ++ [hiddenVol f])
        else (acc, false)
      | none => loadOthers ok skipA skipB (i + 1) rest acc

/-- The part of `onSelectFolder` that runs after the base volume has loaded
successfully (state `st1`: cleared stack holding the base, `vol` set,
`overlayName` reset): find and load the mask as the first `_seg`-named NIfTI
file at the captured `overlayOpacity` value `op`, re-asserting its label
fields on the last stack entry; then load every remaining modality-labelled
file hidden (skipping the base and mask occurrences); finally rebuild the
presence/active maps and the dataset name.  A failing load throws, returning
`false` with the state as mutated so far. -/
def segAndOthers (ok : SourceFile → Bool) (op : ℚ) (st1 : ViewerState)
    (files : List SourceFile) (dname : Option String) : ViewerState × Bool :=
  let afterSeg : ViewerState × Bool :=
    match files.find? isSegFile with
    | some sf =>
      if ok sf then
        ({ st1 with
            volumes := setLastSeg op (st1.volumes ++ [maskVol sf op])
            overlayName := some sf.name }, true)
      else (st1, false)
    | none => (st1, true)
  if afterSeg.2 then
    let skipA : Option Nat := some ((firstIdxP isFlairFile files).getD 0)
    let skipB : Option Nat := firstIdxP isSegFile files
    let lo := loadOthers ok skipA skipB 0 files afterSeg.1.volumes
    if lo.2 then (finishLoad { afterSeg.1 with volumes := lo.1 } files dname, true)
    else ({ afterSeg.1 with volumes := lo.1 }, false)
  else (afterSeg.1, false)

/-- The source's `onSelectFolder`, step for step: clear all volumes and reset
`vol`/`overlayName`; pick the base as the first `_flair`-named NIfTI file,
falling back to `files[0]`; load it (a failing load throws, returning `false`
with the state as mutated so far); then run the mask and hidden-overlay phase
`segAndOthers` with the captured `overlayOpacity`. -/
def onSelectFolder (ok : SourceFile → Bool) (st : ViewerState)
    (files : List SourceFile) (dname : Option String) : ViewerState × Bool :=
  let st0 : ViewerState := { st with volumes := [], vol := none, overlayName := none }
  match files with
  | [] => (finishLoad st0 [] dname, true)
  | f0 :: _ =>
    let base := ((files.find? isFlairFile).getD f0)
    if ok base then
      segAndOthers ok st.overlayOpacity
        { st0 with volumes := [mkBase base], vol := some base } files dname
    else (st0, false)

/-- The source's `loadBaseFromUrl`: remove every volume, then load the file as
the sole (base) volume; on success set `vol` and clear `overlayName` (a
failing load throws before those assignments run). -/
def loadBaseFromUrl (ok : SourceFile → Bool) (st : ViewerState) (f : SourceFile) :
    ViewerState × Bool :=
  let st0 := { st with volumes := [] }
  if ok f then
    ({ st0 with volumes := [mkBase f], vol := some f, overlayName := none }, true)
  else (st0, false)

/-- The source's `loadMaskFromUrl`: remove every overlay while keeping the base
(index 0), then add the file as a red label overlay at the current
`overlayOpacity`; on success record `overlayName` and set `active.seg`. -/
def loadMaskFromUrl (ok : SourceFile → Bool) (st : ViewerState) (f : SourceFile) :
    ViewerState × Bool :=
  let st0 := { st with volumes := st.volumes.take 1 }
  if ok f then
    ({ st0 with
        volumes := st0.volumes ++ [maskVol f st.overlayOpacity]
        overlayName := some f.name
        active := { st.active with seg := true } }, true)
  else (st0, false)

/-- Mutate the first list element satisfying `p` with `g` (the effect of
`nv.volumes.find(...)` followed by an assignment to the found object). -/
def updateFirst {α : Type} (p : α → Bool) (g : α → α) : List α → List α
  | [] => []
  | v :: rest => if p v then g v :: rest else v :: updateFirst p g rest

/-- The string the viewer's `findVol` interpolates for a modality key. -/
def ModKey.str : ModKey → String
  | .flair => "flair"
  | .seg => "seg"
  | .t1 => "t1"
  | .t1ce => "t1ce"
  | .t2 => "t2"

/-- The `findVol` predicate of `setVisibilityForMod`:
`v?.name?.toLowerCase().includes("_" + key)`. -/
def modNameMatch (m : ModKey) (v : Volume) : Bool :=
  containsSub ('_' :: (ModKey.str m).data) (lowerStr v.name.data)

/-- The source's `setVisibilityForMod`: for `flair`, set `nv.volumes[0]`'s
opacity to 1/0; for any other key, find the first volume whose lowercased name
contains `_key` and set its opacity to the on-value (`overlayOpacity` for
`seg`, 1 otherwise) or 0. -/
def setVisibilityForMod (st : ViewerState) (mod : ModKey) (makeActive : Bool) :
    ViewerState :=
  match mod with
  | .flair =>
    match st.volumes with
    | [] => st
    | v :: rest =>
      { st with volumes := { v with opacity := if makeActive then 1 else 0 } :: rest }
  | m =>
    let onVal : ℚ := if makeActive then (if m == ModKey.seg then st.overlayOpacity else 1) else 0
    { st with
      volumes := updateFirst (modNameMatch m) (fun v => { v with opacity := onVal }) st.volumes }

/-- The mask-opacity slider predicate: `vol?.name?.toLowerCase().includes("_seg")`. -/
def segNameMatch (v : Volume) : Bool := containsSub "_seg".data (lowerStr v.name.data)

/-- The mask-opacity slider's `onChange` handler with the parsed value `v`:
store `v` in `overlayOpacity`, then find the first volume whose lowercased
name contains `_seg` and set its opacity to `v`. -/
def sliderOnChange (st : ViewerState) (v : ℚ) : ViewerState :=
  { st with
    overlayOpacity := v
    volumes := updateFirst segNameMatch (fun w => { w with opacity := v }) st.volumes }

/-- First half of `onSelectFolder` up to its first suspension point: clear the
volume list and reset `vol`/`overlayName`, then issue the base load. -/
def clearReset (st : ViewerState) : ViewerState :=
  { st with volumes := [], vol := none, overlayName := none }

/-- Second half of `onSelectFolder` for a dataset whose single file is the
base and matches no `_seg` mask: the base-load completion installs the loaded
volume list, then the remaining synchronous code records `vol` and rebuilds
the maps and dataset name. -/
def baseDone (f : SourceFile) (files : List SourceFile) (dname : Option String)
    (st : ViewerState) : ViewerState :=
  finishLoad { st with volumes := [mkBase f], vol := some f } files dname

/-- Run a list of event-loop segments in schedule order over the shared state. -/
def execSteps : List (ViewerState → ViewerState) → ViewerState → ViewerState
  | [], st => st
  | s :: rest, st => execSteps rest (s st)

/-- The event-loop segments of one `onSelectFolder([f])` invocation for a
single-file dataset: the synchronous part before the base-load `await`, and
the completion-plus-tail part after it. -/
def loadStepsSingle (f : SourceFile) (dname : Option String) :
    List (ViewerState → ViewerState) :=
  [clearReset, baseDone f [f] dname]

/-- A schedule in which task `b` starts after `a`'s first suspension point and
finishes before `a` resumes (`a` has exactly two segments). -/
def interleaveMid (a b : List (ViewerState → ViewerState)) :
    List (ViewerState → ViewerState) :=
  a.take 1 ++ b ++ a.drop 1

/-- The spec's precedence list `FLAIR > SEG > T1CE > T1 > T2` read as a
first-match classifier over the lowercased name, for comparison with the
source's `labelFromName`. -/
def specPrecedence (lower : List Char) : Option ModKey :=
  if tokTest "flair".data lower then some .flair
  else if tokTest "seg".data lower then some .seg
  else if tokTest "t1ce".data lower then some .t1ce
  else if tokTest "t1".data lower then some .t1
  else if tokTest "t2".data lower then some .t2
  else none

/-- A load oracle under which every engine load succeeds. -/
def okAll : SourceFile → Bool := fun _ => true

/-- The dataset of the basic scenario:
`["case1_flair.nii", "case1_seg.nii", "case1_t1.nii"]`. -/
def scenarioFiles : List SourceFile :=
  [⟨"u1", "case1_flair.nii"⟩, ⟨"u2", "case1_seg.nii"⟩, ⟨"u3", "case1_t1.nii"⟩]

/-- A prior state whose stack holds one volume, to probe transactionality. -/
def priorStack : ViewerState :=
  { initState with volumes := [⟨"p", "prior_t1.nii", false, none, 1⟩] }

/-- A dataset whose second file the resolver classifies `FLAIR` while the
first does not match the base-selection predicate. -/
def flairSecondFiles : List SourceFile := [⟨"u1", "a.nii"⟩, ⟨"u2", "flair.nii"⟩]

/-- A dataset with no resolver-classified `FLAIR` file whose second file still
matches the `_flair`-substring base-selection predicate. -/
def flairLikeFiles : List SourceFile := [⟨"u1", "a.nii"⟩, ⟨"u2", "my_flairs.nii"⟩]

/-- A dataset with two resolver-classified `SEGMENTATION` files of which only
the second matches the `_seg`-substring mask-selection predicate. -/
def twoSegFiles : List SourceFile :=
  [⟨"u1", "a.nii"⟩, ⟨"u2", "seg.nii"⟩, ⟨"u3", "case_seg.nii"⟩]

/-- A dataset giving a stack with a `t1ce` overlay sitting before the `t1`
overlay, to probe the substring-based `findVol` lookup. -/
def t1ceBeforeT1Files : List SourceFile :=
  [⟨"u1", "case_flair.nii"⟩, ⟨"u2", "case_t1ce.nii"⟩, ⟨"u3", "case_t1.nii"⟩]

/-- File of dataset A in the stale-load schedule. -/
def fileA : SourceFile := ⟨"ua", "a_flair.nii"⟩

/-- File of dataset B in the stale-load schedule. -/
def fileB : SourceFile := ⟨"ub", "b_flair.nii"⟩

/-- A state whose stack holds a loaded segmentation overlay. -/
def segLoadedState : ViewerState :=
  { initState with volumes := [⟨"u", "a_seg.nii", true, some "red", mkRat 1 2⟩] }

/-- The hidden-overlay loop only ever appends label-free volumes, so it
preserves the number of `isLabel` entries on the stack. -/
theorem loadOthers_countP (ok : SourceFile → Bool) (a b : Option Nat) :
    ∀ (files : List SourceFile) (i : Nat) (acc : List Volume),
      ((loadOthers ok a b i files acc).1.countP fun v => v.isLabel) =
        acc.countP fun v => v.isLabel := by
  intro files
  induction files with
  | nil => intro i acc; rfl
  | cons f rest ih =>
    intro i acc
    simp only [loadOthers]
    split
    · exact ih _ _
    · split
      · split
        · rw [ih]
          simp [hiddenVol]
        · rfl
      · exact ih _ _

/-- The hidden-overlay loop only appends to the stack it is given. -/
theorem loadOthers_exists_append (ok : SourceFile → Bool) (a b : Option Nat) :
    ∀ (files : List SourceFile) (i : Nat) (acc : List Volume),
      ∃ l, (loadOthers ok a b i files acc).1 = acc ++ l := by
  intro files
  induction files with
  | nil => intro i acc; exact ⟨[], by simp [loadOthers]⟩
  | cons f rest ih =>
    intro i acc
    simp only [loadOthers]
    split
    · exact ih _ _
    · split
      · split
        · obtain ⟨l, hl⟩ := ih (i + 1) (acc ++ [hiddenVol f])
          exact ⟨hiddenVol f :: l, by simp [hl]⟩
        · exact ⟨[], by simp⟩
      · exact ih _ _

/-- Under the all-success oracle the hidden-overlay loop never throws. -/
theorem loadOthers_okAll (a b : Option Nat) :
    ∀ (files : List SourceFile) (i : Nat) (acc : List Volume),
      (loadOthers okAll a b i files acc).2 = true := by
  intro files
  induction files with
  | nil => intro i acc; rfl
  | cons f rest ih =>
    intro i acc
    simp only [loadOthers]
    split
    · exact ih _ _
    · split
      · simp only [okAll, if_true]
        exact ih _ _
      · exact ih _ _

/-- The targeted update `updateFirst` never changes the length of the list. -/
theorem updateFirst_length {α : Type} (p : α → Bool) (g : α → α) :
    ∀ l : List α, (updateFirst p g l).length = l.length := by
  intro l
  induction l with
  | nil => rfl
  | cons v rest ih =>
    simp only [updateFirst]
    split <;> simp [ih]

/-- The targeted update `updateFirst` leaves every position other than the first match unchanged. -/
theorem updateFirst_getElem_ne {α : Type} (p : α → Bool) (g : α → α) :
    ∀ (l : List α) (i : Nat), firstIdxP p l ≠ some i →
      (updateFirst p g l)[i]? = l[i]? := by
  intro l
  induction l with
  | nil => intro i _; rfl
  | cons v rest ih =>
    intro i hi
    cases hv : p v with
    | true =>
      cases i with
      | zero => exact absurd (by simp [firstIdxP, hv]) hi
      | succ k => simp [updateFirst, hv]
    | false =>
      cases i with
      | zero => simp [updateFirst, hv]
      | succ k =>
        have hi' : firstIdxP p rest ≠ some k := by
          intro hk
          exact hi (by simp [firstIdxP, hv, hk])
        simpa [updateFirst, hv] using ih k hi'

/-- The targeted update `updateFirst` rewrites exactly the first matching position with `g`. -/
theorem updateFirst_getElem_eq {α : Type} (p : α → Bool) (g : α → α) :
    ∀ (l : List α) (i : Nat) (w : α), firstIdxP p l = some i → l[i]? = some w →
      (updateFirst p g l)[i]? = some (g w) := by
  intro l
  induction l with
  | nil => intro i w h; simp [firstIdxP] at h
  | cons v rest ih =>
    intro i w hidx hget
    cases hv : p v with
    | true =>
      have h0 : 0 = i := by
        have hx : firstIdxP p (v :: rest) = some 0 := by simp [firstIdxP, hv]
        rw [hx] at hidx
        injection hidx
      subst h0
      simp only [List.getElem?_cons_zero, Option.some.injEq] at hget
      subst hget
      simp [updateFirst, hv]
    | false =>
      have hstep : ∃ k, firstIdxP p rest = some k ∧ i = k + 1 := by
        rcases hk : firstIdxP p rest with _ | k
        · simp [firstIdxP, hv, hk] at hidx
        · simp only [firstIdxP, hv, hk] at hidx
          refine ⟨k, rfl, ?_⟩
          simpa using hidx.symm
      obtain ⟨k, hk, rfl⟩ := hstep
      simp only [List.getElem?_cons_succ] at hget
      simpa [updateFirst, hv] using ih k w hk hget

/-- Writing the same opacity through a name-keyed `updateFirst` twice equals
writing it once: the update keeps the name, so the second pass finds the same
volume and assigns the same value. -/
theorem updateFirst_opacity_idem (p : Volume → Bool)
    (hp : ∀ v : Volume, ∀ q : ℚ, p { v with opacity := q } = p v) (q : ℚ) :
    ∀ l : List Volume,
      updateFirst p (fun w => { w with opacity := q })
          (updateFirst p (fun w => { w with opacity := q }) l) =
        updateFirst p (fun w => { w with opacity := q }) l := by
  intro l
  induction l with
  | nil => rfl
  | cons v rest ih =>
    cases hv : p v with
    | true => simp [updateFirst, hv, hp]
    | false => simp [updateFirst, hv, ih]

/-- Both predicates the viewer uses for opacity writes depend only on the
volume's name, so they are stable under opacity updates. -/
theorem segNameMatch_opacity (v : Volume) (q : ℚ) :
    segNameMatch { v with opacity := q } = segNameMatch v := rfl

/-- For the four overlay keys, `setVisibilityForMod` is the name-keyed
`updateFirst` write with the role-specific on-value. -/
theorem setVisibilityForMod_of_ne_flair (st : ViewerState) (m : ModKey) (b : Bool)
    (h : m ≠ ModKey.flair) :
    setVisibilityForMod st m b =
      { st with
        volumes :=
          updateFirst (modNameMatch m)
            (fun v =>
              { v with
                opacity := if b then (if m == ModKey.seg then st.overlayOpacity else 1) else 0 })
            st.volumes } := by
  cases m with
  | flair => exact absurd rfl h
  | seg => rfl
  | t1 => rfl
  | t1ce => rfl
  | t2 => rfl

/-- Appending the mask and then fixing up the last stack entry rewrites
exactly that appended mask entry. -/
theorem setLastSeg_append (op : ℚ) (v : Volume) :
    ∀ l : List Volume,
      setLastSeg op (l ++ [v]) =
        l ++ [{ v with isLabel := true, colormap := some "red", opacity := op }] := by
  intro l
  induction l with
  | nil => rfl
  | cons w rest ih =>
    cases rest with
    | nil => rfl
    | cons x xs =>
      simp only [List.cons_append] at ih ⊢
      simp only [setLastSeg]
      rw [ih]

/-- The mask-and-overlays phase never touches the `vol` state variable. -/
theorem segAndOthers_vol (ok : SourceFile → Bool) (op : ℚ) (st1 : ViewerState)
    (files : List SourceFile) (dname : Option String) :
    (segAndOthers ok op st1 files dname).1.vol = st1.vol := by
  cases hseg : files.find? isSegFile with
  | none =>
    simp only [segAndOthers, hseg]
    repeat' split
    all_goals simp_all [finishLoad]
  | some sf =>
    cases hsf : ok sf with
    | false => simp [segAndOthers, hseg, hsf]
    | true =>
      simp only [segAndOthers, hseg, hsf]
      repeat' split
      all_goals simp_all [finishLoad]

/-- The mask-and-overlays phase only ever appends to the stack it receives. -/
theorem segAndOthers_volumes_append (ok : SourceFile → Bool) (op : ℚ)
    (st1 : ViewerState) (files : List SourceFile) (dname : Option String) :
    ∃ l, (segAndOthers ok op st1 files dname).1.volumes = st1.volumes ++ l := by
  cases hseg : files.find? isSegFile with
  | none =>
    obtain ⟨l, hl⟩ :=
      loadOthers_exists_append ok (some ((firstIdxP isFlairFile files).getD 0))
        (firstIdxP isSegFile files) files 0 st1.volumes
    refine ⟨l, ?_⟩
    simp only [segAndOthers, hseg]
    repeat' split
    all_goals simp_all [finishLoad]
  | some sf =>
    cases hsf : ok sf with
    | false => exact ⟨[], by simp [segAndOthers, hseg, hsf]⟩
    | true =>
      obtain ⟨l, hl⟩ :=
        loadOthers_exists_append ok (some ((firstIdxP isFlairFile files).getD 0))
          (firstIdxP isSegFile files) files 0
          (setLastSeg op (st1.volumes ++ [maskVol sf op]))
      refine ⟨{ maskVol sf op with
        isLabel := true
        colormap := some "red"
        opacity := op } :: l, ?_⟩
      simp only [segAndOthers, hseg, hsf]
      rw [setLastSeg_append] at hl
      repeat' split
      all_goals simp_all [finishLoad, setLastSeg_append]

/-- If the stack handed to the mask-and-overlays phase is headed by the base
volume, the resulting stack is still headed by it. -/
theorem segAndOthers_head (ok : SourceFile → Bool) (op : ℚ) (st1 : ViewerState)
    (files : List SourceFile) (dname : Option String) (v : Volume)
    (hv : st1.volumes.head? = some v) :
    (segAndOthers ok op st1 files dname).1.volumes.head? = some v := by
  obtain ⟨l, hl⟩ := segAndOthers_volumes_append ok op st1 files dname
  rw [hl]
  cases hvs : st1.volumes with
  | nil => simp_all
  | cons x xs => simp_all

/-- Claim C10: loading the empty file list removes every previously loaded
volume, issues no load (the result does not depend on the load oracle), sets
every presence and active entry to false, resets `vol`/`overlayName`, records
the dataset name argument, and completes without error. -/
theorem empty_folder_load (ok : SourceFile → Bool) (st : ViewerState)
    (dname : Option String) :
    onSelectFolder ok st [] dname =
      ({ st with
          volumes := []
          vol := none
          overlayName := none
          present := some ModMap.allFalse
          active := ModMap.allFalse
          datasetName := dname }, true) := by
  cases dname <;> rfl

/-- Claim C5: loading `["case1_flair.nii", "case1_seg.nii", "case1_t1.nii"]`
from the freshly mounted state yields base `case1_flair.nii` (opacity 1), mask
`case1_seg.nii` as a red label overlay at opacity 0.5, `case1_t1.nii` hidden
at opacity 0, presence `{flair, seg, t1}` and active `{flair, seg}`. -/
theorem scenario_case1 :
    (onSelectFolder okAll initState scenarioFiles none).1.vol =
        some ⟨"u1", "case1_flair.nii"⟩ ∧
    (onSelectFolder okAll initState scenarioFiles none).1.volumes =
      [⟨"u1", "case1_flair.nii", false, none, 1⟩,
       ⟨"u2", "case1_seg.nii", true, some "red", mkRat 1 2⟩,
       ⟨"u3", "case1_t1.nii", false, none, 0⟩] ∧
    (onSelectFolder okAll initState scenarioFiles none).1.overlayName =
        some "case1_seg.nii" ∧
    (onSelectFolder okAll initState scenarioFiles none).1.present =
        some ⟨true, true, true, false, false⟩ ∧
    (onSelectFolder okAll initState scenarioFiles none).1.active =
        ⟨true, true, false, false, false⟩ ∧
    (onSelectFolder okAll initState scenarioFiles none).2 = true := by
  decide

/-- Claim C1, counterexample: from a prior state whose stack holds one volume,
a dataset load whose base load fails does fail as a whole, but the stack is
not left in its prior state — it has been emptied before the load was issued. -/
theorem baseFail_stack_not_prior :
    (onSelectFolder (fun _ => false) priorStack [⟨"u", "x_flair.nii"⟩] none).2 = false ∧
    (onSelectFolder (fun _ => false) priorStack [⟨"u", "x_flair.nii"⟩] none).1.volumes ≠
      priorStack.volumes := by
  decide

/-- Claim C1, amended: if the base load of a non-empty dataset fails, the whole
load fails and the stack is left empty (every prior volume was removed up
front), with `vol` and `overlayName` reset and all other state untouched. -/
theorem baseFail_clears_stack (ok : SourceFile → Bool) (st : ViewerState)
    (dname : Option String) (f0 : SourceFile) (rest : List SourceFile)
    (h : ok (((f0 :: rest).find? isFlairFile).getD f0) = false) :
    onSelectFolder ok st (f0 :: rest) dname =
      ({ st with volumes := [], vol := none, overlayName := none }, false) := by
  simp [onSelectFolder, h]

/-- Witness for `baseFail_clears_stack` at a concrete failing load. -/
theorem baseFail_clears_stack_inst :
    onSelectFolder (fun _ => false) priorStack [⟨"u", "x_flair.nii"⟩] none =
      ({ priorStack with volumes := [], vol := none, overlayName := none }, false) :=
  baseFail_clears_stack _ _ _ _ _ (by decide)

/-- The mask-and-overlays phase adds at most one label overlay on top of the
stack it receives. -/
theorem segAndOthers_countP (ok : SourceFile → Bool) (op : ℚ) (st1 : ViewerState)
    (files : List SourceFile) (dname : Option String) :
    ((segAndOthers ok op st1 files dname).1.volumes.countP fun v => v.isLabel) ≤
      (st1.volumes.countP fun v => v.isLabel) + 1 := by
  cases hseg : files.find? isSegFile with
  | none =>
    have hc :=
      loadOthers_countP ok (some ((firstIdxP isFlairFile files).getD 0))
        (firstIdxP isSegFile files) files 0 st1.volumes
    simp only [segAndOthers, hseg]
    repeat' split
    all_goals simp_all [finishLoad]
  | some sf =>
    cases hsf : ok sf with
    | false =>
      simp only [segAndOthers, hseg, hsf]
      repeat' split
      all_goals simp_all
    | true =>
      have hc :=
        loadOthers_countP ok (some ((firstIdxP isFlairFile files).getD 0))
          (firstIdxP isSegFile files) files 0
          (setLastSeg op (st1.volumes ++ [maskVol sf op]))
      rw [setLastSeg_append] at hc
      simp only [segAndOthers, hseg, hsf]
      repeat' split
      all_goals simp_all [finishLoad, setLastSeg_append, List.countP_append, List.countP_cons]

/-- Under the all-success oracle, the mask-and-overlays phase records as
`overlayName` exactly the name of the first `_seg`-named NIfTI file (keeping
the incoming value when there is none). -/
theorem segAndOthers_overlayName (op : ℚ) (st1 : ViewerState)
    (files : List SourceFile) (dname : Option String) :
    (segAndOthers okAll op st1 files dname).1.overlayName =
      ((files.find? isSegFile).map fun f => f.name).orElse fun _ => st1.overlayName := by
  cases hseg : files.find? isSegFile with
  | none =>
    simp only [segAndOthers, hseg]
    repeat' split
    all_goals simp_all [finishLoad, Option.orElse]
  | some sf =>
    simp only [segAndOthers, hseg, okAll]
    repeat' split
    all_goals simp_all [finishLoad, Option.orElse]

/-- Claim C2, counterexample: the base is not selected through the modality
resolver.  Left: `flair.nii` is resolver-classified `FLAIR`, yet the chosen
base is `a.nii`, which is not `FLAIR`-classified.  Right: no file is
resolver-classified `FLAIR`, yet the chosen base is `my_flairs.nii`, not the
first file of the list. -/
theorem base_not_resolver_flair :
    (labelFromName "flair.nii" = Label.flair ∧
      labelFromName "a.nii" ≠ Label.flair ∧
      (onSelectFolder okAll initState flairSecondFiles none).1.vol =
        some ⟨"u1", "a.nii"⟩) ∧
    (labelFromName "a.nii" ≠ Label.flair ∧
      labelFromName "my_flairs.nii" ≠ Label.flair ∧
      flairLikeFiles.head? = some ⟨"u1", "a.nii"⟩ ∧
      (onSelectFolder okAll initState flairLikeFiles none).1.vol =
        some ⟨"u2", "my_flairs.nii"⟩) := by
  decide

/-- Claim C2, amended: for every non-empty dataset whose selected base loads
successfully, the base volume is the first file whose lowercased name contains
the substring `_flair` and ends in `.nii`/`.nii.gz`, falling back to the first
file in input order when no file matches; it is recorded in `vol` and sits at
stack index 0. -/
theorem base_selection_policy (ok : SourceFile → Bool) (st : ViewerState)
    (dname : Option String) (f0 : SourceFile) (rest : List SourceFile)
    (h : ok (((f0 :: rest).find? isFlairFile).getD f0) = true) :
    (onSelectFolder ok st (f0 :: rest) dname).1.vol =
        some (((f0 :: rest).find? isFlairFile).getD f0) ∧
    (onSelectFolder ok st (f0 :: rest) dname).1.volumes.head? =
        some (mkBase (((f0 :: rest).find? isFlairFile).getD f0)) := by
  have hred : onSelectFolder ok st (f0 :: rest) dname =
      segAndOthers ok st.overlayOpacity
        { st with
            volumes := [mkBase (((f0 :: rest).find? isFlairFile).getD f0)]
            vol := some (((f0 :: rest).find? isFlairFile).getD f0)
            overlayName := none }
        (f0 :: rest) dname := by
    simp [onSelectFolder, h]
  rw [hred]
  constructor
  · rw [segAndOthers_vol]
  · exact segAndOthers_head _ _ _ _ _ _ rfl

/-- Witness for `base_selection_policy` at the basic scenario dataset. -/
theorem base_selection_policy_inst :
    (onSelectFolder okAll initState scenarioFiles none).1.vol =
        some ((scenarioFiles.find? isFlairFile).getD ⟨"u1", "case1_flair.nii"⟩) ∧
    (onSelectFolder okAll initState scenarioFiles none).1.volumes.head? =
        some (mkBase ((scenarioFiles.find? isFlairFile).getD ⟨"u1", "case1_flair.nii"⟩)) :=
  base_selection_policy okAll initState none ⟨"u1", "case1_flair.nii"⟩
    [⟨"u2", "case1_seg.nii"⟩, ⟨"u3", "case1_t1.nii"⟩] (by decide)

/-- Claim C3: whenever the `t1ce` token (and the `t1` token) matches a
lowercased filename, the resolver never answers plain `T1`, and answers `T1CE`
as soon as no higher-precedence token (`flair`, `seg`) matches; resolution
depends only on the lowercased name (case-insensitivity); the resolver agrees
with the spec's first-match precedence `FLAIR > SEG > T1CE > T1 > T2`
wherever that precedence classifies the name; and the token tests are
word-boundary-aware (`t1` matches `a_t1.x` but not `at1b`). -/
theorem resolver_t1ce_precedence (n : String) :
    (tokTest "t1ce".data (lowerStr n.data) = true →
      tokTest "t1".data (lowerStr n.data) = true →
        labelFromName n ≠ Label.t1 ∧
          (tokTest "flair".data (lowerStr n.data) = false →
            tokTest "seg".data (lowerStr n.data) = false →
              labelFromName n = Label.t1ce)) ∧
    (∀ m : String, lowerStr n.data = lowerStr m.data →
      (labelFromName n).toModKey? = (labelFromName m).toModKey?) ∧
    (∀ k : ModKey, specPrecedence (lowerStr n.data) = some k →
      labelFromName n = Label.ofKey k) ∧
    (tokTest "t1".data "at1b".data = false ∧ tokTest "t1".data "a_t1.x".data = true) := by
  refine ⟨?_, ?_, ?_, by decide⟩
  · intro h1 _
    constructor
    · have hL : labelFromName n = Label.flair ∨ labelFromName n = Label.seg ∨
          labelFromName n = Label.t1ce := by
        simp only [labelFromName, h1]
        repeat' split
        all_goals simp_all
      rcases hL with h | h | h <;> simp [h]
    · intro hf hs
      simp [labelFromName, h1, hf, hs]
  · intro m hm
    simp only [labelFromName, hm]
    repeat' split
    all_goals simp_all [Label.toModKey?]
  · intro k hk
    simp only [specPrecedence] at hk
    simp only [labelFromName]
    repeat' split at hk
    all_goals simp_all [Label.ofKey]
    all_goals (subst hk; rfl)

/-- Witness for `resolver_t1ce_precedence`: the name `case_t1_t1ce.nii`
contains both tokens and resolves to `T1CE`, not `T1`. -/
theorem resolver_t1ce_precedence_inst :
    labelFromName "a_t1.b_t1ce.nii" = Label.t1ce ∧
    labelFromName "a_t1.b_t1ce.nii" ≠ Label.t1 := by
  have h := resolver_t1ce_precedence "a_t1.b_t1ce.nii"
  have h1 := h.1 (by decide) (by decide)
  exact ⟨h1.2 (by decide) (by decide), h1.1⟩

/-- Claim C4, counterexample: in
`["a.nii", "seg.nii", "case_seg.nii"]` both `seg.nii` and `case_seg.nii` are
resolver-classified `SEGMENTATION` and `seg.nii` comes first, yet the mask
overlay (the only `isLabel` stack entry and the recorded `overlayName`) is
`case_seg.nii` — the first file containing the substring `_seg`, not the
first classified file. -/
theorem mask_not_first_classified :
    (twoSegFiles.filter fun f => labelFromName f.name == Label.seg).head? =
        some ⟨"u2", "seg.nii"⟩ ∧
    (onSelectFolder okAll initState twoSegFiles none).1.overlayName =
        some "case_seg.nii" ∧
    ((onSelectFolder okAll initState twoSegFiles none).1.volumes.filter
        fun v => v.isLabel).map (fun v => v.name) = ["case_seg.nii"] ∧
    ("case_seg.nii" : String) ≠ "seg.nii" := by
  decide

/-- Claim C4, amended: the mask overlay is the first file whose lowercased
name contains the substring `_seg` and ends in `.nii`/`.nii.gz` (which need
not be the first resolver-classified `SEGMENTATION` file), and after any
dataset load — under any load oracle — the stack never holds two volumes with
`isLabel = true`. -/
theorem mask_selection_unique_label (ok : SourceFile → Bool) (st : ViewerState)
    (files : List SourceFile) (dname : Option String) :
    ((onSelectFolder ok st files dname).1.volumes.countP fun v => v.isLabel) ≤ 1 ∧
    (onSelectFolder okAll st files dname).1.overlayName =
      (files.find? isSegFile).map fun f => f.name := by
  constructor
  · cases files with
    | nil => simp [onSelectFolder, finishLoad]
    | cons f0 rest =>
      by_cases hok : ok (((f0 :: rest).find? isFlairFile).getD f0) = true
      · have hred : onSelectFolder ok st (f0 :: rest) dname =
            segAndOthers ok st.overlayOpacity
              { st with
                  volumes := [mkBase (((f0 :: rest).find? isFlairFile).getD f0)]
                  vol := some (((f0 :: rest).find? isFlairFile).getD f0)
                  overlayName := none }
              (f0 :: rest) dname := by
          simp [onSelectFolder, hok]
        rw [hred]
        have hc := segAndOthers_countP ok st.overlayOpacity
          { st with
              volumes := [mkBase (((f0 :: rest).find? isFlairFile).getD f0)]
              vol := some (((f0 :: rest).find? isFlairFile).getD f0)
              overlayName := none }
          (f0 :: rest) dname
        simpa [mkBase] using hc
      · rw [Bool.not_eq_true] at hok
        simp [onSelectFolder, hok]
  · cases files with
    | nil => simp [onSelectFolder, finishLoad]
    | cons f0 rest =>
      have hred : onSelectFolder okAll st (f0 :: rest) dname =
          segAndOthers okAll st.overlayOpacity
            { st with
                volumes := [mkBase (((f0 :: rest).find? isFlairFile).getD f0)]
                vol := some (((f0 :: rest).find? isFlairFile).getD f0)
                overlayName := none }
            (f0 :: rest) dname := by
        simp [onSelectFolder, okAll]
      rw [hred, segAndOthers_overlayName]
      cases (f0 :: rest).find? isSegFile <;> simp [Option.orElse]

/-- The stack, `vol`, `overlayName` and the success flag produced by the
mask-and-overlays phase depend on the incoming state only through those same
three fields. -/
theorem segAndOthers_state_eq (ok : SourceFile → Bool) (op : ℚ)
    (st1 st1' : ViewerState) (files : List SourceFile) (dname : Option String)
    (hv : st1.volumes = st1'.volumes) (ho : st1.vol = st1'.vol)
    (hn : st1.overlayName = st1'.overlayName) :
    (segAndOthers ok op st1 files dname).1.volumes =
        (segAndOthers ok op st1' files dname).1.volumes ∧
    (segAndOthers ok op st1 files dname).1.vol =
        (segAndOthers ok op st1' files dname).1.vol ∧
    (segAndOthers ok op st1 files dname).1.overlayName =
        (segAndOthers ok op st1' files dname).1.overlayName ∧
    (segAndOthers ok op st1 files dname).2 = (segAndOthers ok op st1' files dname).2 := by
  cases hseg : files.find? isSegFile with
  | none =>
    simp only [segAndOthers, hseg]
    repeat' split
    all_goals simp_all [finishLoad]
  | some sf =>
    cases hsf : ok sf with
    | false => simp [segAndOthers, hseg, hsf, hv, ho, hn]
    | true =>
      simp only [segAndOthers, hseg, hsf]
      repeat' split
      all_goals simp_all [finishLoad]

/-- Claim C7, amended (sequential part): the code has no load-generation
guard, but a dataset load started after the previous one has fully completed
depends on the prior state only through the slider value — the resulting
stack, `vol`, `overlayName` and success flag are functions of the new
dataset's files alone. -/
theorem fresh_load_prior_independent (ok : SourceFile → Bool) (st st' : ViewerState)
    (files : List SourceFile) (dname : Option String)
    (h : st.overlayOpacity = st'.overlayOpacity) :
    (onSelectFolder ok st files dname).1.volumes =
        (onSelectFolder ok st' files dname).1.volumes ∧
    (onSelectFolder ok st files dname).1.vol =
        (onSelectFolder ok st' files dname).1.vol ∧
    (onSelectFolder ok st files dname).1.overlayName =
        (onSelectFolder ok st' files dname).1.overlayName ∧
    (onSelectFolder ok st files dname).2 = (onSelectFolder ok st' files dname).2 := by
  cases files with
  | nil => simp [onSelectFolder, finishLoad]
  | cons f0 rest =>
    by_cases hok : ok (((f0 :: rest).find? isFlairFile).getD f0) = true
    · have hred : onSelectFolder ok st (f0 :: rest) dname =
          segAndOthers ok st.overlayOpacity
            { st with
                volumes := [mkBase (((f0 :: rest).find? isFlairFile).getD f0)]
                vol := some (((f0 :: rest).find? isFlairFile).getD f0)
                overlayName := none }
            (f0 :: rest) dname := by
        simp [onSelectFolder, hok]
      have hred' : onSelectFolder ok st' (f0 :: rest) dname =
          segAndOthers ok st'.overlayOpacity
            { st' with
                volumes := [mkBase (((f0 :: rest).find? isFlairFile).getD f0)]
                vol := some (((f0 :: rest).find? isFlairFile).getD f0)
                overlayName := none }
            (f0 :: rest) dname := by
        simp [onSelectFolder, hok]
      rw [hred, hred', h]
      exact segAndOthers_state_eq ok st'.overlayOpacity _ _ (f0 :: rest) dname rfl rfl rfl
    · rw [Bool.not_eq_true] at hok
      simp [onSelectFolder, hok]

/-- Witness for `fresh_load_prior_independent`: loading the basic scenario over
a non-empty prior stack or over the freshly mounted state gives the same
volume stack. -/
theorem fresh_load_prior_independent_inst :
    (onSelectFolder okAll priorStack scenarioFiles none).1.volumes =
      (onSelectFolder okAll initState scenarioFiles none).1.volumes :=
  (fresh_load_prior_independent okAll priorStack initState scenarioFiles none
    (by decide)).1

/-- Executing the two event-loop segments of a single-file dataset load back
to back is exactly the sequential `onSelectFolder` on that dataset (for a file
that is not also mask-named). -/
theorem execSteps_single_faithful (st : ViewerState) (f : SourceFile)
    (dname : Option String) (h : isSegFile f = false) :
    execSteps (loadStepsSingle f dname) st = (onSelectFolder okAll st [f] dname).1 := by
  simp only [loadStepsSingle, execSteps, clearReset, baseDone]
  cases hf : isFlairFile f with
  | true =>
    simp [onSelectFolder, okAll, hf, segAndOthers, List.find?, h, firstIdxP, loadOthers,
      finishLoad]
  | false =>
    simp [onSelectFolder, okAll, hf, segAndOthers, List.find?, h, firstIdxP, loadOthers,
      finishLoad]

/-- Claim C7, counterexample: no load-generation token exists, so a stale
completion is applied to the stack.  Schedule: dataset A (`a_flair.nii`)
starts and suspends on its base load; dataset B (`b_flair.nii`) starts and
completes; A's base-load completion then resumes and is applied.  The final
stack and state reflect dataset A's file, not only B's files. -/
theorem stale_completion_applied :
    (execSteps (interleaveMid (loadStepsSingle fileA (some "A"))
        (loadStepsSingle fileB (some "B"))) initState).volumes = [mkBase fileA] ∧
    (execSteps (interleaveMid (loadStepsSingle fileA (some "A"))
        (loadStepsSingle fileB (some "B"))) initState).vol = some fileA ∧
    (execSteps (interleaveMid (loadStepsSingle fileA (some "A"))
        (loadStepsSingle fileB (some "B"))) initState).datasetName = some "A" ∧
    fileA.name ≠ fileB.name := by
  decide

/-- Claim C8: `loadBaseFromUrl f` followed by `loadMaskFromUrl mask` (which
removes all overlays from index 1 and re-adds the mask) yields the same volume
stack as a fresh `onSelectFolder` of the two files. -/
theorem roundtrip_stack_eq (ok : SourceFile → Bool) (st : ViewerState)
    (dname : Option String) (f mask : SourceFile)
    (hf : isFlairFile f = true) (hmask : isSegFile mask = true)
    (hfs : isSegFile f = false) (hok1 : ok f = true) (hok2 : ok mask = true) :
    (loadMaskFromUrl ok (loadBaseFromUrl ok st f).1 mask).1.volumes =
      (onSelectFolder ok st [f, mask] dname).1.volumes := by
  have hL : (loadMaskFromUrl ok (loadBaseFromUrl ok st f).1 mask).1.volumes =
      [mkBase f, maskVol mask st.overlayOpacity] := by
    simp [loadBaseFromUrl, loadMaskFromUrl, hok1, hok2]
  have hR : (onSelectFolder ok st [f, mask] dname).1.volumes =
      [mkBase f, maskVol mask st.overlayOpacity] := by
    simp [onSelectFolder, List.find?, hf, hok1, segAndOthers, hfs, hmask, hok2,
      setLastSeg, firstIdxP, loadOthers, finishLoad, maskVol]
  rw [hL, hR]

/-- Witness for `roundtrip_stack_eq` at the scenario's FLAIR and mask files. -/
theorem roundtrip_stack_eq_inst :
    (loadMaskFromUrl okAll (loadBaseFromUrl okAll initState ⟨"u1", "case1_flair.nii"⟩).1
        ⟨"u2", "case1_seg.nii"⟩).1.volumes =
      (onSelectFolder okAll initState
          [⟨"u1", "case1_flair.nii"⟩, ⟨"u2", "case1_seg.nii"⟩] none).1.volumes :=
  roundtrip_stack_eq okAll initState none ⟨"u1", "case1_flair.nii"⟩
    ⟨"u2", "case1_seg.nii"⟩ (by decide) (by decide) (by decide) rfl rfl

/-- Claim C6, counterexample: on the stack loaded from
`["case_flair.nii", "case_t1ce.nii", "case_t1.nii"]`, toggling role `t1` on
sets the opacity of the `t1ce`-classified volume (the first whose name
contains `_t1`) to 1 and leaves the `t1`-classified volume hidden: the
mutation does not touch the volume belonging to the targeted role. -/
theorem toggle_t1_hits_t1ce :
    ((setVisibilityForMod (onSelectFolder okAll initState t1ceBeforeT1Files none).1
        ModKey.t1 true).volumes.map fun vo => (vo.name, vo.opacity)) =
      [("case_flair.nii", 1), ("case_t1ce.nii", 1), ("case_t1.nii", 0)] ∧
    labelFromName "case_t1ce.nii" = Label.t1ce ∧
    labelFromName "case_t1.nii" = Label.t1 ∧
    Label.t1ce ≠ Label.t1 := by
  decide

/-- Claim C6, amended: for an overlay role, `setVisibilityForMod` mutates at
most one stack entry — the first volume whose lowercased name contains
`_role` (which, because the lookup is a substring match, can be a
`t1ce`-named volume when the role is `t1`) — setting its opacity to the
role-specific on-value (`overlayOpacity` for `seg`, 1 otherwise, 0 for off)
and leaving every other entry untouched; the mask-opacity slider handler
likewise mutates only the first volume whose name contains `_seg`. -/
theorem opacity_mutation_frame (st : ViewerState) (m : ModKey) (b : Bool) (v : ℚ)
    (hm : m ≠ ModKey.flair) :
    ((setVisibilityForMod st m b).volumes.length = st.volumes.length ∧
      (∀ i : Nat, firstIdxP (modNameMatch m) st.volumes ≠ some i →
        (setVisibilityForMod st m b).volumes[i]? = st.volumes[i]?) ∧
      (∀ i w, firstIdxP (modNameMatch m) st.volumes = some i →
        st.volumes[i]? = some w →
          (setVisibilityForMod st m b).volumes[i]? =
            some { w with
              opacity :=
                if b then (if m == ModKey.seg then st.overlayOpacity else 1) else 0 })) ∧
    ((sliderOnChange st v).volumes.length = st.volumes.length ∧
      (∀ i : Nat, firstIdxP segNameMatch st.volumes ≠ some i →
        (sliderOnChange st v).volumes[i]? = st.volumes[i]?) ∧
      (∀ i w, firstIdxP segNameMatch st.volumes = some i → st.volumes[i]? = some w →
        (sliderOnChange st v).volumes[i]? = some { w with opacity := v })) := by
  rw [setVisibilityForMod_of_ne_flair st m b hm]
  refine ⟨⟨?_, ?_, ?_⟩, ?_, ?_, ?_⟩
  · exact updateFirst_length _ _ st.volumes
  · intro i hi
    exact updateFirst_getElem_ne _ _ st.volumes i hi
  · intro i w h1 h2
    exact updateFirst_getElem_eq _ _ st.volumes i w h1 h2
  · exact updateFirst_length _ _ st.volumes
  · intro i hi
    exact updateFirst_getElem_ne _ _ st.volumes i hi
  · intro i w h1 h2
    exact updateFirst_getElem_eq _ _ st.volumes i w h1 h2

/-- Witness for `opacity_mutation_frame` on the loaded mask state. -/
theorem opacity_mutation_frame_inst :
    (setVisibilityForMod segLoadedState ModKey.t2 true).volumes.length =
        segLoadedState.volumes.length ∧
    (sliderOnChange segLoadedState (mkRat 1 4)).volumes.length =
        segLoadedState.volumes.length := by
  have h := opacity_mutation_frame segLoadedState ModKey.t2 true (mkRat 1 4) (by decide)
  exact ⟨h.1.1, h.2.1⟩

/-- Claim C9, counterexample: the slider handler stores the given value
verbatim — an out-of-range 3/2 ends up both in `overlayOpacity` and in the
segmentation volume's opacity, so values are not clamped into `[0, 1]`. -/
theorem slider_stores_unclamped :
    ((sliderOnChange segLoadedState (mkRat 3 2)).volumes.map fun v => v.opacity) =
        [mkRat 3 2] ∧
    ¬ (mkRat 3 2 ≤ (1 : ℚ)) ∧
    (sliderOnChange segLoadedState (mkRat 3 2)).overlayOpacity = mkRat 3 2 := by
  decide

/-- Claim C9, amended: the slider handler stores exactly the value it is given
(the `[0, 1]` range is enforced upstream by the slider element's bounds, not
by the handler): `overlayOpacity` and the first `_seg`-named volume's opacity
become `v`; the operation is idempotent; and in-range inputs stay in range. -/
theorem slider_value_passthrough_idem (st : ViewerState) (v : ℚ) :
    (sliderOnChange st v).overlayOpacity = v ∧
    (∀ i w, firstIdxP segNameMatch st.volumes = some i → st.volumes[i]? = some w →
      (sliderOnChange st v).volumes[i]? = some { w with opacity := v }) ∧
    sliderOnChange (sliderOnChange st v) v = sliderOnChange st v ∧
    (0 ≤ v → v ≤ 1 →
      0 ≤ (sliderOnChange st v).overlayOpacity ∧
        (sliderOnChange st v).overlayOpacity ≤ 1) := by
  refine ⟨rfl, ?_, ?_, ?_⟩
  · intro i w h1 h2
    exact updateFirst_getElem_eq _ _ st.volumes i w h1 h2
  · simp [sliderOnChange,
      updateFirst_opacity_idem segNameMatch (fun _ _ => rfl) v st.volumes]
  · intro h1 h2
    exact ⟨h1, h2⟩

/-- Witness for `slider_value_passthrough_idem` at value 1/4. -/
theorem slider_value_passthrough_idem_inst :
    (sliderOnChange segLoadedState (mkRat 1 4)).overlayOpacity = mkRat 1 4 ∧
    sliderOnChange (sliderOnChange segLoadedState (mkRat 1 4)) (mkRat 1 4) =
      sliderOnChange segLoadedState (mkRat 1 4) := by
  have h := slider_value_passthrough_idem segLoadedState (mkRat 1 4)
  exact ⟨h.1, h.2.2.1⟩

end Healthcare
